import Mathlib

/-!
Verification of the `automated_radio_disc_jockey` repository.

This file gives a shallow embedding of the parts of the Python sources
relevant to the checked claims:

* `src/disc_jockey.py` (next-song selection loop, referee, history log,
  run loop event order, call signatures),
* `src/song_details_to_dj_intro.py` (intro validation pipeline),
* `src/llm_wrapper.py` (XML tag extraction, LLM exchange log),
* `src/next_song_selector.py` and `src/audio_utils.py` (candidate sampling),
* `src/transcribe_audio.py` (temporary file cleanup).

Strings are modelled as `List Char` restricted to the ASCII behaviour of the
Python string primitives involved (`str.strip`, `str.split`, `str.lower`,
`\s`, `\w`); file contents and file systems are modelled explicitly, and
sources of nondeterminism (LLM replies, `random.sample`, I/O errors) are
oracle parameters.
-/

namespace RadioDJ

/-- ASCII whitespace, the characters matched by Python `str.strip()`,
`str.split()` and the regex class `\s` on ASCII text. -/
def isSpaceChar (c : Char) : Bool :=
  c = ' ' || c = '\t' || c = '\n' || c = '\r' || c = '\x0b' || c = '\x0c'

/-- Python `str.lstrip()`. -/
def lstrip (s : List Char) : List Char := s.dropWhile isSpaceChar

/-- Python `str.rstrip()`. -/
def rstrip (s : List Char) : List Char := (s.reverse.dropWhile isSpaceChar).reverse

/-- Python `str.strip()`. -/
def pyStrip (s : List Char) : List Char := rstrip (lstrip s)

/-- `os.path.basename`: the part of the path after the last `/`. -/
def pyBasename (p : List Char) : List Char :=
  (p.reverse.takeWhile (fun c => c ≠ '/')).reverse

/-! ## C1: keyword arguments of the intro calls in `_generate_intro_with_referee`

`DiscJockey._generate_intro_with_referee` (src/disc_jockey.py:367 and 419)
calls `song_details_to_dj_intro.prepare_intro_text` and
`song_details_to_dj_intro.polish_intro_for_reading` with keyword arguments.
In Python, a call binds successfully only if every keyword argument names a
parameter of the callee (neither callee declares `**kwargs`); otherwise the
call raises `TypeError`. We embed the parameter lists of the callees and the
keyword lists of the call sites. -/

/-- Parameters of `song_details_to_dj_intro.prepare_intro_text`
(src/song_details_to_dj_intro.py:490-497). -/
def prepareIntroTextParams : List String :=
  ["song", "prev_song", "model_name", "details_text", "allow_fallback", "lyrics_text"]

/-- Parameters of `song_details_to_dj_intro.polish_intro_for_reading`
(src/song_details_to_dj_intro.py:297-301). -/
def polishIntroForReadingParams : List String :=
  ["intro_text", "song", "model_name"]

/-- Keyword arguments of the `prepare_intro_text` call at
src/disc_jockey.py:367-374 (the first argument `song` is positional). -/
def introCallKeywords : List String :=
  ["prev_song", "model_name", "details_text", "lyrics_text", "show_cleanup"]

/-- Keyword arguments of the `polish_intro_for_reading` call at
src/disc_jockey.py:419-424 (`best_intro`, `song`, `self.model_name` are
positional). -/
def polishCallKeywords : List String :=
  ["show_cleanup"]

/-- Python keyword binding for a callee without `**kwargs`: every keyword
argument must name a declared parameter, otherwise the call raises
`TypeError`. -/
def keywordsAccepted (params keywords : List String) : Bool :=
  keywords.all (fun k => params.contains k)

/-! ## C9: append-only logging

`HistoryLogger.log` (src/disc_jockey.py:41-47) and `_log_llm_exchange`
(src/llm_wrapper.py:19-53) open their log files with mode `"a"` and only
ever call `write`. We model a log file by its content; an append-mode write
sequence extends the content on the right. `_log_llm_exchange` swallows
every exception (`except Exception: return`), which we model with a failure
oracle `failAfter`: `some k` means an exception was raised after `k`
successful writes, in which case the function still returns normally with
the first `k` writes appended. Environment-computed strings (timestamp,
formatted elapsed time, prompt hash) are parameters. -/

/-- The entry `HistoryLogger.log` writes for one song/intro pair. -/
def historyLogEntry (songPath introText : List Char) : List Char :=
  ("SONG: ".data ++ pyBasename songPath ++ "\n".data)
    ++ ("INTRO: ".data ++ introText ++ "\n".data)
    ++ (List.replicate 40 '-' ++ "\n".data)

/-- `HistoryLogger.log`: append the entry to the current content of
`history.log`. -/
def historyLog (content songPath introText : List Char) : List Char :=
  content ++ historyLogEntry songPath introText

/-- The sequence of `handle.write` payloads of `_log_llm_exchange`
(src/llm_wrapper.py:38-51), in order. -/
def llmLogWrites (timestamp backend : List Char) (modelName : Option (List Char))
    (elapsedStr promptHash promptText responseText : List Char)
    (errorText : Option (List Char)) : List (List Char) :=
  [List.replicate 72 '=' ++ "\n".data,
   "Timestamp: ".data ++ timestamp ++ "\n".data,
   "Backend: ".data ++ backend ++ "\n".data,
   "Model: ".data ++ (modelName.getD "n/a".data) ++ "\n".data,
   "Elapsed: ".data ++ elapsedStr ++ "\n".data,
   "Prompt SHA256: ".data ++ promptHash ++ "\n".data]
  ++ (match errorText with
      | some e => ["Error: ".data ++ e ++ "\n".data]
      | none => [])
  ++ ["Prompt:\n".data,
      pyStrip promptText ++ "\n".data,
      "Response:\n".data,
      pyStrip responseText ++ "\n".data,
      List.replicate 72 '=' ++ "\n\n".data]

/-- `_log_llm_exchange` acting on the content of `output/llm_responses.log`.
`failAfter = none` is the error-free run; `failAfter = some k` models an
exception raised after `k` successful appends, caught by the surrounding
`try`/`except`, so the function returns normally in every case. -/
def logLlmExchange (content : List Char) (timestamp backend : List Char)
    (modelName : Option (List Char))
    (elapsedStr promptHash promptText responseText : List Char)
    (errorText : Option (List Char)) (failAfter : Option Nat) : List Char :=
  let writes := llmLogWrites timestamp backend modelName elapsedStr promptHash
    promptText responseText errorText
  match failAfter with
  | none => content ++ writes.flatten
  | some k => content ++ (writes.take k).flatten

/-! ## C8: event order of one iteration of `DiscJockey.run`

`DiscJockey.run` (src/disc_jockey.py:275-300) is a straight-line loop body.
The producer thread (target `prepare_next_async`) is the only writer of
`self.next_song` and `self.queued_intro` between `start()` and `join()`;
the main loop's accesses to those fields are the events below, in source
order. -/

/-- The statements of one `DiscJockey.run` loop iteration that matter for
the shared fields, in source order. -/
inductive RunEvent where
  /-- `self.prepare_and_speak_intro(self.current_song, use_queue=True)`:
  reads `self.queued_intro` (src/disc_jockey.py:201-204). -/
  | speakIntro
  /-- `playback_helpers.play_song(self.current_song)` (line 277). -/
  | playSong
  /-- `self.next_song = None` (line 280). -/
  | clearNextSong
  /-- `self.queued_intro = None` (line 281). -/
  | clearQueuedIntro
  /-- `next_thread.start()` (line 283). -/
  | threadStart
  /-- `playback_helpers.wait_for_song_end(...)` (line 285). -/
  | waitForSongEnd
  /-- `next_thread.join()` (line 286). -/
  | threadJoin
  /-- `if not self.next_song:` (line 288). -/
  | readNextSong
  /-- `if self.queued_intro and len(self.queued_intro.strip()) > 5:` (line 292). -/
  | readQueuedIntro
  /-- `self.current_song = self.next_song` handoff (lines 298-300). -/
  | handoffNextSong
  deriving DecidableEq, BEq

/-- Main-loop events that read `self.next_song` or `self.queued_intro`. -/
def readsSharedField : RunEvent → Bool
  | .speakIntro => true
  | .readNextSong => true
  | .readQueuedIntro => true
  | .handoffNextSong => true
  | _ => false

/-- One iteration of the `while True` body of `DiscJockey.run`
(src/disc_jockey.py:275-300), in source order. -/
def runIterationEvents : List RunEvent :=
  [.speakIntro, .playSong, .clearNextSong, .clearQueuedIntro,
   .threadStart, .waitForSongEnd, .threadJoin,
   .readNextSong, .readQueuedIntro, .handoffNextSong]

/-- Scan an event sequence, tracking whether the producer thread is running
(started and not yet joined); `true` iff no shared-field read happens while
the thread runs. -/
def noReadsWhileThreadRunning : List RunEvent → Bool → Bool
  | [], _ => true
  | e :: rest, running =>
    match e with
    | .threadStart => noReadsWhileThreadRunning rest true
    | .threadJoin => noReadsWhileThreadRunning rest false
    | _ => (!(running && readsSharedField e)) && noReadsWhileThreadRunning rest running

/-! ## C3: the resampling loop of `build_candidate_songs`

`next_song_selector.build_candidate_songs` (src/next_song_selector.py:232-248)
draws `candidate_paths = audio_utils.select_song_list(song_list, sample_size)`
and redraws while `current_song.path in candidate_paths and len(song_list) > 1`.
`audio_utils.select_song_list` (src/audio_utils.py:86-98) clamps the sample
size and calls `random.sample`, which picks that many distinct positions of
the list. We model one draw by the set of lists `random.sample` can return. -/

/-- The clamp `sample_size = max(1, min(sample_size, len(song_list)))` of
`audio_utils.select_song_list` (src/audio_utils.py:97). -/
def selectSongListSize (sampleSize : Int) (n : Nat) : Nat :=
  (max 1 (min sampleSize (n : Int))).toNat

/-- The possible results of `random.sample(song_list, k)`: lists of length
`k` whose elements are drawn from `k` distinct positions of `song_list`
(so each value occurs at most as often as in `song_list`). -/
def IsValidSample (songList : List (List Char)) (k : Nat) (s : List (List Char)) : Prop :=
  s.length = k ∧ ∀ x, s.count x ≤ songList.count x

/-- The guard of the `while` loop at src/next_song_selector.py:239. -/
def resampleLoopGuard (curPath : List Char) (songList : List (List Char))
    (candidatePaths : List (List Char)) : Prop :=
  curPath ∈ candidatePaths ∧ 1 < songList.length

/-- The failing input for C3: a two-song library. -/
def twoSongLibrary : List (List Char) := ["a.mp3".data, "b.mp3".data]

/-! ## C4 and C5: `DiscJockey.choose_next`

`DiscJockey.choose_next` (src/disc_jockey.py:83-151) runs up to
`MAX_NEXT_SONG_ATTEMPTS` attempts; each attempt builds a candidate pool,
runs the selector twice, accepts a unanimous pick, otherwise consults the
LLM referee; after the loop it falls back to `_fallback_next_song`
(src/disc_jockey.py:154-177). The candidate pools, the two selector results
and the referee outcome of each attempt depend on LLM replies and sampling,
so they are an oracle per attempt; `random.choice` picks are oracle indices;
the `audio_utils.Song` constructor (which reads file metadata) is an oracle
function `mkSong`. -/

/-- `audio_utils.Song`: the fields used by `choose_next` and its helpers. -/
structure Song where
  path : List Char
  artist : List Char
  album : List Char
  title : List Char
  deriving DecidableEq, Inhabited

/-- `next_song_selector.SelectionResult` (src/next_song_selector.py:22-27). -/
structure SelectionResult where
  song : Option Song
  choiceText : List Char
  reason : List Char
  rawChoice : List Char
  deriving DecidableEq, Inhabited

/-- Environment of one iteration of the attempt loop: the candidate pool
built by `build_candidate_songs`, the two `choose_next_song` results, and
the outcome of `_run_referee` when it is consulted (`none` when the referee
could not pick a winner). -/
structure AttemptOracle where
  candidates : List Song
  firstResult : SelectionResult
  secondResult : SelectionResult
  refereeResult : Option SelectionResult
  deriving Inhabited

/-- What one attempt-loop iteration does: return a song or retry. -/
inductive StepOutcome where
  | ret (s : Song)
  | retry
  deriving DecidableEq

/-- One iteration of the attempt loop of `choose_next`
(src/disc_jockey.py:86-149). The second component records whether the LLM
referee was invoked (`self._run_referee`, line 127). -/
def attemptStep (o : AttemptOracle) : StepOutcome × Bool :=
  if o.candidates.isEmpty then (.retry, false)
  else
    match o.firstResult.song, o.secondResult.song with
    | some firstSong, some secondSong =>
      if firstSong.path = secondSong.path then (.ret firstSong, false)
      else
        match o.refereeResult.bind (fun r => r.song) with
        | some bestSong => (.ret bestSong, true)
        | none => (.retry, true)
    | some firstSong, none => (.ret firstSong, false)
    | none, some secondSong => (.ret secondSong, false)
    | none, none => (.retry, false)

/-- Indices consumed by the two `random.choice` calls of
`_fallback_next_song`; `random.choice(seq)` returns `seq[i % len(seq)]` for
some oracle index `i`. -/
structure FallbackOracle where
  candIdx : Nat
  pathIdx : Nat

/-- `DiscJockey._fallback_next_song` (src/disc_jockey.py:154-177). -/
def fallbackNextSong (mkSong : List Char → Song) (lastSong : Song)
    (songPaths : List (List Char)) (candidates : List Song)
    (fb : FallbackOracle) : Option Song :=
  if candidates.isEmpty then
    let otherPaths := songPaths.filter (fun p => p ≠ lastSong.path)
    if otherPaths.isEmpty then none
    else some (mkSong (otherPaths.getD (fb.pathIdx % otherPaths.length) []))
  else some (candidates.getD (fb.candIdx % candidates.length) default)

/-- The attempt loop of `choose_next`, threading `last_candidates` (updated
to the drawn pool whenever it is non-empty, src/disc_jockey.py:99). -/
def chooseNextLoop (mkSong : List Char → Song) (lastSong : Song)
    (songPaths : List (List Char)) (fb : FallbackOracle) :
    List AttemptOracle → List Song → Option Song
  | [], lastCands => fallbackNextSong mkSong lastSong songPaths lastCands fb
  | o :: rest, lastCands =>
    match attemptStep o with
    | (.ret s, _) => some s
    | (.retry, _) =>
      chooseNextLoop mkSong lastSong songPaths fb rest
        (if o.candidates.isEmpty then lastCands else o.candidates)

/-- `MAX_NEXT_SONG_ATTEMPTS` (src/disc_jockey.py:30). -/
def MAX_NEXT_SONG_ATTEMPTS : Nat := 5

/-- `DiscJockey.choose_next` (src/disc_jockey.py:83-151): run the attempt
loop for `range(MAX_NEXT_SONG_ATTEMPTS)` and fall back afterwards. -/
def chooseNext (mkSong : List Char → Song) (lastSong : Song)
    (songPaths : List (List Char)) (oracles : Nat → AttemptOracle)
    (fb : FallbackOracle) : Option Song :=
  chooseNextLoop mkSong lastSong songPaths fb
    ((List.range MAX_NEXT_SONG_ATTEMPTS).map oracles) []

/-- The value of `last_candidates` after all five attempts retried: the
last non-empty candidate pool drawn, or `[]`. -/
def lastCandidatePool (oracles : Nat → AttemptOracle) : List Song :=
  (List.range MAX_NEXT_SONG_ATTEMPTS).foldl
    (fun acc i => if (oracles i).candidates.isEmpty then acc else (oracles i).candidates) []

/-- Concrete song used by the C5 witness. -/
def sampleSong : Song := ⟨"track01.mp3".data, "X".data, "Y".data, "Z".data⟩

/-- A second concrete song with a different path. -/
def sampleSongB : Song := ⟨"track02.mp3".data, "X".data, "Y".data, "W".data⟩

/-- Oracle on which both selector runs agree on `sampleSong`. -/
def sampleAgreeOracle : AttemptOracle :=
  ⟨[sampleSong, sampleSongB],
   ⟨some sampleSong, [], [], []⟩, ⟨some sampleSong, [], [], []⟩, none⟩

/-- Oracle on which the selector runs disagree, so the referee is consulted. -/
def sampleDisagreeOracle : AttemptOracle :=
  ⟨[sampleSong, sampleSongB],
   ⟨some sampleSong, [], [], []⟩, ⟨some sampleSongB, [], [], []⟩,
   some ⟨some sampleSongB, [], [], []⟩⟩

/-- Oracle whose attempt retries (empty candidate pool). -/
def retryOracle : AttemptOracle := ⟨[], ⟨none, [], [], []⟩, ⟨none, [], [], []⟩, none⟩

/-- Metadata-free `audio_utils.Song` constructor used by witnesses. -/
def mkSongOfPath (p : List Char) : Song :=
  ⟨p, "Unknown Artist".data, "Unknown Album".data, []⟩

/-! ## C10: temporary-file cleanup in `transcribe_audio`

`transcribe_audio.transcribe_audio` (src/transcribe_audio.py:70-161) creates
a transcription WAV via `audio_wav.create_transcription_wav`, runs
`whisper-cli` (which writes `wav_name.txt` next to the WAV when it
succeeds and produces output), and unlinks the transcript file and the WAV
before returning, with `os.unlink` wrapped in `try/except OSError: pass`.
We track the set of files the call creates; `os.unlink` removes a path from
the set (an absent path is a no-op, which is what the `try/except` is for).
Environment-dependent outcomes are fields of `TranscribeEnv`. -/

/-- Environment of one `transcribe_audio` call. -/
structure TranscribeEnv where
  /-- `audio_path` is non-empty (line 79). -/
  audioPathNonempty : Bool
  /-- `os.path.isfile(audio_path)` (line 81). -/
  audioIsFile : Bool
  /-- `shutil.which("whisper-cli")` succeeded (line 85). -/
  whisperCliFound : Bool
  /-- `_ensure_model(...)` returned True (line 95). -/
  modelEnsured : Bool
  /-- Result of `audio_wav.create_transcription_wav(audio_path)` (line 102). -/
  wavPath : Option (List Char)
  /-- Return code of the `whisper-cli` subprocess (line 127). -/
  whisperReturncode : Int
  /-- Content of `{wav_name}.txt` when whisper produced it (line 146). -/
  transcriptContent : Option (List Char)

/-- `os.path.join(temp_dir, f"{wav_name}.txt")` where `temp_dir` and
`wav_name` are the dirname and basename of the WAV path: the WAV path with
`.txt` appended. -/
def transcriptPathOf (wavPath : List Char) : List Char := wavPath ++ ".txt".data

/-- `os.unlink` on a tracked file set (absent path: no-op, as arranged by
the surrounding `try/except OSError: pass`). -/
def removeFile (p : List Char) (fs : List (List Char)) : List (List Char) :=
  fs.filter (fun q => q ≠ p)

/-- `transcribe_audio`: result transcript and the files created by the call
that still exist when it returns. -/
def transcribeAudio (env : TranscribeEnv) : Option (List Char) × List (List Char) :=
  if !env.audioPathNonempty then (none, [])
  else if !env.audioIsFile then (none, [])
  else if !env.whisperCliFound then (none, [])
  else if !env.modelEnsured then (none, [])
  else
    match env.wavPath with
    | none => (none, [])
    | some wav =>
      if env.whisperReturncode ≠ 0 then
        (none, removeFile wav [wav])
      else
        let files1 := match env.transcriptContent with
          | some _ => [wav, transcriptPathOf wav]
          | none => [wav]
        let transcript := (env.transcriptContent.map pyStrip).getD []
        let files2 := removeFile wav (removeFile (transcriptPathOf wav) files1)
        (if transcript.isEmpty then none else some transcript, files2)

/-- Concrete environment used by the C10 witness. -/
def sampleTranscribeEnv : TranscribeEnv :=
  ⟨true, true, true, true, some "/tmp/dj/song.wav".data, 0, some " la la la ".data⟩

/-! ## String primitives for the intro validator and the XML extractor

ASCII embeddings of the Python/`re` primitives used by
`song_details_to_dj_intro.py` and `llm_wrapper.py`. -/

/-- The class `[a-z0-9]`, i.e. what survives `_normalize_sentence`. -/
def isLowerAlnum (c : Char) : Bool :=
  ('a' ≤ c && c ≤ 'z') || ('0' ≤ c && c ≤ '9')

/-- ASCII alphanumeric (`[a-z0-9]` with `re.IGNORECASE`). -/
def isAsciiAlnum (c : Char) : Bool :=
  isLowerAlnum c || ('A' ≤ c && c ≤ 'Z')

/-- The regex class `\w` on ASCII text. -/
def isWordChar (c : Char) : Bool := isAsciiAlnum c || c = '_'

/-- ASCII digit (`str.isdigit` on ASCII text). -/
def isDigitChar (c : Char) : Bool := '0' ≤ c && c ≤ '9'

/-- Python `str.lower()` on ASCII text. -/
def lowerStr (s : List Char) : List Char := s.map Char.toLower

/-- Python substring membership `pat in s`. -/
def isSubstringOf : List Char → List Char → Bool
  | pat, [] => pat.isEmpty
  | pat, c :: cs => pat.isPrefixOf (c :: cs) || isSubstringOf pat cs

/-- Accumulator loop of `str.split()` (split on whitespace runs, no empty
parts). -/
def splitWordsAux : List Char → List Char → List (List Char)
  | [], acc => if acc.isEmpty then [] else [acc.reverse]
  | c :: cs, acc =>
    if isSpaceChar c then
      if acc.isEmpty then splitWordsAux cs []
      else acc.reverse :: splitWordsAux cs []
    else splitWordsAux cs (c :: acc)

/-- Python `str.split()` with no argument. -/
def splitWords (s : List Char) : List (List Char) := splitWordsAux s []

/-- The class `[.!?]`, as in the sentence-splitting regexes and the
membership test `text[-1] not in ".!?"`. -/
def isSentencePunct (c : Char) : Bool := c = '.' || c = '!' || c = '?'

/-- Accumulator loop of `re.split(r"[.!?]+", text)`: split at each maximal
run of sentence punctuation, keeping empty boundary parts. The fuel is the
length of the text; every step consumes at least one character, so the
initial fuel never runs out. -/
def splitPunctGo : Nat → List Char → List Char → List (List Char)
  | 0, _, acc => [acc.reverse]
  | _ + 1, [], acc => [acc.reverse]
  | fuel + 1, c :: cs, acc =>
    if isSentencePunct c then
      acc.reverse :: splitPunctGo fuel (cs.dropWhile isSentencePunct) []
    else splitPunctGo fuel cs (c :: acc)

/-- `re.split(r"[.!?]+", text)`. -/
def splitPunct (s : List Char) : List (List Char) := splitPunctGo s.length s []

/-- `re.sub(r"[^a-z0-9]+", " ", text)`: replace each maximal run of
non-alphanumeric characters by one space (fuel: the length of the text). -/
def collapseNonAlnumGo : Nat → List Char → List Char
  | 0, _ => []
  | _ + 1, [] => []
  | fuel + 1, c :: cs =>
    if isLowerAlnum c then c :: collapseNonAlnumGo fuel cs
    else ' ' :: collapseNonAlnumGo fuel (cs.dropWhile (fun d => !isLowerAlnum d))

/-- `re.sub(r"[^a-z0-9]+", " ", text)`. -/
def collapseNonAlnum (s : List Char) : List Char := collapseNonAlnumGo s.length s

/-- `re.sub(r"\s+", " ", text)`: replace each maximal whitespace run by one
space (fuel: the length of the text). -/
def collapseSpacesGo : Nat → List Char → List Char
  | 0, _ => []
  | _ + 1, [] => []
  | fuel + 1, c :: cs =>
    if isSpaceChar c then ' ' :: collapseSpacesGo fuel (cs.dropWhile isSpaceChar)
    else c :: collapseSpacesGo fuel cs

/-- `re.sub(r"\s+", " ", text)`. -/
def collapseSpaces (s : List Char) : List Char := collapseSpacesGo s.length s

/-- `_normalize_sentence` (src/song_details_to_dj_intro.py:96-103): lower,
collapse non-alphanumeric runs to spaces, collapse whitespace, strip. -/
def normalize_sentence (text : List Char) : List Char :=
  pyStrip (collapseSpaces (collapseNonAlnum (lowerStr text)))

/-- Python `s.find(pat, start)` (as an `Option` instead of `-1`): the least
index `i ≥ start` at which `pat` occurs in `s`. -/
def findSubFrom (s pat : List Char) (start : Nat) : Option Nat :=
  (List.range (s.length + 1)).find?
    (fun i => decide (start ≤ i) && pat.isPrefixOf (s.drop i))

/-- Python `s.rfind(pat)` (as an `Option` instead of `-1`): the greatest
index at which `pat` occurs in `s`. -/
def rfindSub (s pat : List Char) : Option Nat :=
  ((List.range (s.length + 1)).filter (fun i => pat.isPrefixOf (s.drop i))).getLast?

/-- Python slicing `s[a:b]` for `a ≤ b`. -/
def pySlice (s : List Char) (a b : Nat) : List Char := (s.drop a).take (b - a)

/-- The backtick character (written via its code point). -/
def isBacktick (c : Char) : Bool := c.toNat = 96

/-- The string of three backticks. -/
def tripleBacktick : List Char := List.replicate 3 (Char.ofNat 96)

/-- One pass of `re.sub(r"```[a-z0-9]*\s*(.*?)```", r"\1", text,
flags=IGNORECASE|DOTALL)`. A match must start at an occurrence of three
backticks; the info word (`[a-z0-9]*` case-insensitive, greedy) and the
whitespace (`\s*`, greedy) contain no backtick, and the lazy group ends at
the first following occurrence of three backticks. When the first
occurrence of three backticks has no closing occurrence after its info and
whitespace runs, no occurrence at or past that point closes any later
attempt either (the skipped characters are never backticks), so the regex
matches nowhere and the text is returned unchanged. The fuel is the length
of the text; every successful match consumes at least three characters. -/
def subFencesGo : Nat → List Char → List Char
  | 0, s => s
  | fuel + 1, s =>
    match findSubFrom s tripleBacktick 0 with
    | none => s
    | some p =>
      let rest := (s.drop (p + 3)).dropWhile isAsciiAlnum
      let rest2 := rest.dropWhile isSpaceChar
      match findSubFrom rest2 tripleBacktick 0 with
      | none => s
      | some q => s.take p ++ rest2.take q ++ subFencesGo fuel (rest2.drop (q + 3))

/-- `re.sub(r"```[a-z0-9]*\s*(.*?)```", r"\1", text, IGNORECASE|DOTALL)`. -/
def subFences (s : List Char) : List Char := subFencesGo s.length s

/-- `re.sub(r"```", " ", text)`: each non-overlapping triple backtick
becomes one space. -/
def replaceTriple : List Char → List Char
  | c :: c2 :: c3 :: rest =>
    if isBacktick c && isBacktick c2 && isBacktick c3 then ' ' :: replaceTriple rest
    else c :: replaceTriple (c2 :: c3 :: rest)
  | c :: cs => c :: replaceTriple cs
  | [] => []

/-- `_strip_code_fences` (src/song_details_to_dj_intro.py:106-111). -/
def strip_code_fences (text : List Char) : List Char :=
  if text.isEmpty then []
  else (replaceTriple (subFences text)).map (fun c => if isBacktick c then ' ' else c)

/-- Match a literal pattern fragment, returning the rest of the input. -/
def matchLiteral (s lit : List Char) : Option (List Char) :=
  if lit.isPrefixOf s then some (s.drop lit.length) else none

/-- The regex fragment `,?`: consume one comma when present (nothing after
the optional comma can start with a comma, so this is deterministic). -/
def matchOptComma : List Char → List Char
  | c :: cs => if c = ',' then cs else c :: cs
  | [] => []

/-- The regex `\b` after a word character: the next character is not a word
character (or the string ends). -/
def wordBoundaryAfter : List Char → Bool
  | [] => true
  | c :: _ => !isWordChar c

/-- `re.match(r"^\s*ladies and gentlemen,?\s*welcome to", text, IGNORECASE)`
on the lowered text. -/
def boilerWelcomeMatch (s : List Char) : Bool :=
  match matchLiteral (s.dropWhile isSpaceChar) "ladies and gentlemen".data with
  | none => false
  | some r => "welcome to".data.isPrefixOf ((matchOptComma r).dropWhile isSpaceChar)

/-- The alternatives of `(?:disney fans|music lovers|folks|everyone)`. -/
def boilerGreetTails : List (List Char) :=
  ["disney fans".data, "music lovers".data, "folks".data, "everyone".data]

/-- `re.match(r"^\s*GREET,?\s*(?:disney fans|music lovers|folks|everyone)\b",
text, IGNORECASE)` on the lowered text (the alternatives start with
pairwise distinct letters, so the match is deterministic). -/
def boilerGreetingMatch (s greet : List Char) : Bool :=
  match matchLiteral (s.dropWhile isSpaceChar) greet with
  | none => false
  | some r =>
    let r2 := (matchOptComma r).dropWhile isSpaceChar
    boilerGreetTails.any (fun t => t.isPrefixOf r2 && wordBoundaryAfter (r2.drop t.length))

/-- `_starts_with_boilerplate` (src/song_details_to_dj_intro.py:180-192);
`IGNORECASE` matching of the lowercase patterns is matching on the lowered
text. -/
def starts_with_boilerplate (text : List Char) : Bool :=
  if text.isEmpty then false
  else
    let s := lowerStr text
    boilerWelcomeMatch s || boilerGreetingMatch s "hey there".data
      || boilerGreetingMatch s "hello".data || boilerGreetingMatch s "hi there".data

/-- Index of the leftmost match of `re.search(r"[.!?]\s+", text)`: the first
position holding a sentence punctuation character followed by whitespace. -/
def findPunctSpaceIdx : List Char → Option Nat
  | c :: d :: rest =>
    if isSentencePunct c && isSpaceChar d then some 0
    else (findPunctSpaceIdx (d :: rest)).map (· + 1)
  | _ => none

/-- `_strip_leading_boilerplate_sentence`
(src/song_details_to_dj_intro.py:195-203). `text[match.end():].lstrip()`
equals dropping through the punctuation character and left-stripping,
because the greedy `\s+` ends at a non-space character. -/
def strip_leading_boilerplate_sentence (text : List Char) : List Char :=
  if text.isEmpty then []
  else if !starts_with_boilerplate text then text
  else
    match findPunctSpaceIdx text with
    | some i => lstrip (text.drop (i + 1))
    | none => []

/-- The conditional boilerplate stripping step of `_finalize_intro_text`
(src/song_details_to_dj_intro.py:225-226). -/
def boilerplateProcessed (cleanIntro : List Char) : List Char :=
  if starts_with_boilerplate cleanIntro then
    strip_leading_boilerplate_sentence cleanIntro
  else cleanIntro

/-- `_estimate_sentence_count` (src/song_details_to_dj_intro.py:83-93):
count the `[.!?]+`-separated parts with at least three words. -/
def estimate_sentence_count (text : List Char) : Nat :=
  (splitPunct text).foldl
    (fun count part => if 3 ≤ (splitWords (pyStrip part)).length then count + 1 else count) 0

/-- `MAX_INTRO_CHARS` (src/song_details_to_dj_intro.py:23). -/
def MAX_INTRO_CHARS : Nat := 1200

/-- `MIN_INTRO_SENTENCES` (line 24). -/
def MIN_INTRO_SENTENCES : Nat := 3

/-- `MAX_INTRO_SENTENCES` (line 25). -/
def MAX_INTRO_SENTENCES : Nat := 10

/-- `MAX_REPEAT_SENTENCE` (line 30). -/
def MAX_REPEAT_SENTENCE : Nat := 2

/-- The counting loop of `_has_excessive_repetition`
(src/song_details_to_dj_intro.py:368-384), with the `counts` dict as the
list of normalized sentences seen so far. -/
def hasExcessiveRepetitionGo : List (List Char) → List (List Char) → Bool
  | [], _ => false
  | part :: rest, seen =>
    let n := normalize_sentence part
    if n.isEmpty then hasExcessiveRepetitionGo rest seen
    else if (splitWords n).length < 3 then hasExcessiveRepetitionGo rest seen
    else if MAX_REPEAT_SENTENCE < seen.count n + 1 then true
    else hasExcessiveRepetitionGo rest (n :: seen)

/-- `_has_excessive_repetition` (src/song_details_to_dj_intro.py:368-384). -/
def has_excessive_repetition (text : List Char) : Bool :=
  hasExcessiveRepetitionGo (splitPunct text) []

/-- `TITLE_STOPWORDS` (src/song_details_to_dj_intro.py:33-63). -/
def TITLE_STOPWORDS : List (List Char) :=
  (["a", "an", "and", "by", "edit", "feat", "featuring", "for", "from", "in",
    "instrumental", "live", "mix", "mono", "of", "original", "reprise",
    "remaster", "remastered", "remix", "score", "soundtrack", "stereo", "the",
    "theme", "version", "vol", "volume", "with"] : List String).map String.data

/-- `_title_tokens` (src/song_details_to_dj_intro.py:332-343): tokens of the
normalized title, without stopwords and without short non-numeric tokens. -/
def title_tokens (title : List Char) : List (List Char) :=
  (splitWords (normalize_sentence title)).filter
    (fun token => !(TITLE_STOPWORDS.contains token)
      && (3 ≤ token.length || (!token.isEmpty && token.all isDigitChar)))

/-- `int(round(0.4 * n))` for a natural `n`: `0.4 * n` has fractional part
in `{0, .2, .4, .6, .8}` (never `.5`, and the float error is far below
`.1`), so Python's banker's rounding is rounding to the nearest integer,
which is `(4 * n + 5) / 10` in natural division. -/
def round04 (n : Nat) : Nat := (4 * n + 5) / 10

/-- `_title_is_mentioned` (src/song_details_to_dj_intro.py:346-365). -/
def title_is_mentioned (intro title : List Char) : Bool :=
  if title.isEmpty then true
  else
    let introNorm := normalize_sentence intro
    if introNorm.isEmpty then false
    else
      let titleNorm := normalize_sentence title
      if !titleNorm.isEmpty && isSubstringOf titleNorm introNorm then true
      else
        let tokens := title_tokens title
        if tokens.isEmpty then true
        else
          let introTokens := splitWords introNorm
          let hits := (tokens.filter (fun t => introTokens.contains t)).length
          if tokens.length ≤ 2 then 1 ≤ hits
          else if tokens.length ≤ 4 then 2 ≤ hits
          else max 2 (round04 tokens.length) ≤ hits

/-- `_append_title_if_missing` (src/song_details_to_dj_intro.py:450-461). -/
def append_title_if_missing (text songTitle : List Char) : List Char :=
  if songTitle.isEmpty then text
  else
    let introNorm := normalize_sentence text
    let titleNorm := normalize_sentence songTitle
    if titleNorm.isEmpty || isSubstringOf titleNorm introNorm then text
    else
      let text2 :=
        if !text.isEmpty && !isSentencePunct (text.getLast?.getD ' ') then
          rstrip text ++ ['.']
        else text
      if !text2.isEmpty then text2 ++ ' ' :: songTitle ++ ['.']
      else songTitle ++ ['.']

/-- The title step of `_finalize_intro_text`
(src/song_details_to_dj_intro.py:237-241): append the title when missing,
but keep the unamended text when the amended one would exceed
`MAX_INTRO_CHARS`. -/
def finalize_title_step (cleanIntro2 songTitle : List Char) : List Char :=
  if !songTitle.isEmpty then
    if (append_title_if_missing cleanIntro2 songTitle).length ≤ MAX_INTRO_CHARS then
      append_title_if_missing cleanIntro2 songTitle
    else cleanIntro2
  else cleanIntro2

/-- `_finalize_intro_text` (src/song_details_to_dj_intro.py:206-242) with
`allow_refine=False`, so every `_refine_or_none` branch returns `None`.
(With `allow_refine=True` a non-`None` result is produced by this same
function on the refined text, so this covers every non-`None` return.)
The `_title_is_mentioned` call at line 235 only prints, so it does not
appear here. -/
def finalize_intro_text (text : List Char) (song : Song) : Option (List Char) :=
  if text.isEmpty then none
  else
    let cleanIntro := pyStrip (strip_code_fences text)
    if cleanIntro.isEmpty then none
    else
      let lowered := lowerStr cleanIntro
      if isSubstringOf "fact:".data lowered || isSubstringOf "trivia:".data lowered then none
      else if cleanIntro.contains '<' && cleanIntro.contains '>' then none
      else if MAX_INTRO_CHARS < cleanIntro.length then none
      else
        let cleanIntro2 := boilerplateProcessed cleanIntro
        if starts_with_boilerplate cleanIntro && cleanIntro2.isEmpty then none
        else
          let sentenceCount := estimate_sentence_count cleanIntro2
          if sentenceCount < MIN_INTRO_SENTENCES
              || MAX_INTRO_SENTENCES < sentenceCount then none
          else if has_excessive_repetition cleanIntro2 then none
          else some (finalize_title_step cleanIntro2 song.title)

/-- `llm_wrapper.extract_xml_tag` (src/llm_wrapper.py:56-95). -/
def extract_xml_tag (rawText tag : List Char) : List Char :=
  if rawText.isEmpty then []
  else
    let lower := lowerStr rawText
    let openTok := '<' :: tag
    let closeTok := '<' :: '/' :: tag
    match rfindSub lower openTok with
    | none => []
    | some startIdx =>
      match findSubFrom rawText ['>'] startIdx with
      | none => []
      | some gtIdx =>
        match findSubFrom lower closeTok (gtIdx + 1) with
        | none => pyStrip (rawText.drop (gtIdx + 1))
        | some closeIdx => pyStrip (pySlice rawText (gtIdx + 1) closeIdx)

/-- `pat` occurs in `s` at index `i`. -/
def OccursAt (s pat : List Char) (i : Nat) : Prop := pat <+: s.drop i

instance (s pat : List Char) (i : Nat) : Decidable (OccursAt s pat i) :=
  inferInstanceAs (Decidable (pat <+: s.drop i))

/-! ## Counterexample inputs for C2, C6, C7 -/

/-- C2 counterexample intro text: 631 characters, three sentences, passes
every validator check, does not mention the 573-character title below, and
appending the title would exceed `MAX_INTRO_CHARS`
(631 + 2 + 573 = 1206 > 1200). -/
def ce2Text : List Char :=
  "This opening number rolls in with a warm bed of organ chords while the rhythm section keeps a gentle and unhurried pulse underneath every measure of the arrangement. Listeners who enjoy patient grooves will notice how the guitar lines weave around the vocal phrases without ever crowding them in the mix of this recording. The band recorded the whole session in one room which gives the performance an easy conversational feel from the first chord to the very final fade and the engineers kept every take intact so the room tone breathes naturally between phrases while tape hiss hums softly behind the last sustained chord indeed.".data

/-- C2 counterexample song title (none of its words occur in `ce2Text`). -/
def ce2Title : List Char :=
  "Zanzibar Quixotic Marmalade Nebulous Cartwheel Juniper Obsidian Paradox Windmill Falcon Harbor Lantern Meadow Pebble Quiver Raven Saffron Thistle Umber Velvet Willow Xylophone Yonder Zephyr Amulet Bramble Cinder Drizzle Ember Fathom Glacier Hollow Icicle Jostle Kestrel Limestone Mosaic Nutmeg Opal Prairie Quartz Russet Sequoia Tundra Urchin Vortex Walnut Yarrow Zenith Acorn Basalt Cobalt Dogwood Fjord Garnet Hazel Jade Lotus Mango Nectar Onyx Quill Reef Slate Topaz Umbra Wren Yucca Zinnia Quasar Bistro Cavern Dapple Eddy Flint Grotto Heather Ivory Jigsaw Knoll Lagoon".data

/-- C2 counterexample song. -/
def ce2Song : Song := ⟨"ce2.mp3".data, "A".data, "B".data, ce2Title⟩

/-- C6 counterexample intro text: a boilerplate opening sentence followed by
ten short sentences; eleven estimated sentences in total, ten after the
leading boilerplate sentence is removed. -/
def ce6Text : List Char :=
  "Ladies and gentlemen, welcome to the show. Tune one starts now. Drums roll in softly. Bass walks down low. Keys shimmer up high. Horns answer the call. Voices join the chorus. Strings swell out wide. Tempo eases back down. Lights dim once more. Song fades out slow.".data

/-- C6 counterexample song (empty title: the title step is the identity). -/
def ce6Song : Song := ⟨"ce6.mp3".data, "A".data, "B".data, []⟩

/-- Text used by the C2 witness. -/
def c2WitnessText : List Char :=
  "One two three good. Four five six fine. Seven eight nine done.".data

/-- Song used by the C2 witness. -/
def c2WitnessSong : Song := ⟨"w.mp3".data, "A".data, "B".data, "My Song".data⟩

/-- The validated intro for the C2 witness (title appended). -/
def c2WitnessResult : List Char :=
  "One two three good. Four five six fine. Seven eight nine done. My Song.".data

/-! ## Theorems -/

/-- C1: the claim that the intro calls in `_generate_intro_with_referee`
match the callees' signatures fails on the code: both call sites pass the
keyword `show_cleanup`, which neither `prepare_intro_text` nor
`polish_intro_for_reading` accepts, so both calls raise `TypeError`. -/
theorem c1_show_cleanup_keyword_not_accepted :
    keywordsAccepted prepareIntroTextParams introCallKeywords = false ∧
    keywordsAccepted polishIntroForReadingParams polishCallKeywords = false := by
  decide

/-- C9: both log writers are append-only: the previous content of
`history.log` (resp. `output/llm_responses.log`) is a prefix of the content
after `HistoryLogger.log` (resp. `_log_llm_exchange`), the latter for every
failure oracle, including runs where `_log_llm_exchange` catches an
exception part-way through and returns normally. -/
theorem c9_logs_append_only :
    (∀ content songPath introText,
      content <+: historyLog content songPath introText) ∧
    (∀ content timestamp backend modelName elapsedStr promptHash promptText
        responseText errorText failAfter,
      content <+: logLlmExchange content timestamp backend modelName elapsedStr
        promptHash promptText responseText errorText failAfter) := by
  constructor
  · intro content songPath introText
    exact ⟨historyLogEntry songPath introText, rfl⟩
  · intro content timestamp backend modelName elapsedStr promptHash promptText
      responseText errorText failAfter
    cases failAfter with
    | none => exact ⟨_, rfl⟩
    | some k => exact ⟨_, rfl⟩

/-- C8: in `DiscJockey.run`, the producer thread is started only after the
current song starts playing, is joined before the loop reads
`self.next_song`/`self.queued_intro`, and across two consecutive loop
iterations no shared-field read of the main loop falls between
`start()` and `join()`. -/
theorem c8_producer_thread_joined_before_use :
    noReadsWhileThreadRunning (runIterationEvents ++ runIterationEvents) false = true ∧
    runIterationEvents.indexOf RunEvent.playSong <
      runIterationEvents.indexOf RunEvent.threadStart ∧
    runIterationEvents.indexOf RunEvent.threadStart <
      runIterationEvents.indexOf RunEvent.threadJoin ∧
    runIterationEvents.indexOf RunEvent.threadJoin <
      runIterationEvents.indexOf RunEvent.readNextSong := by
  decide

/-- C3: the claim that the resampling loop always exits fails on the code:
for the two-song library with sample size 2, every list `random.sample` can
return contains the current song's path `"a.mp3"`, so the loop guard at
src/next_song_selector.py:239 holds after every redraw and the loop never
exits. -/
theorem c3_two_song_library_loop_never_exits :
    ∀ s, IsValidSample twoSongLibrary (selectSongListSize 2 twoSongLibrary.length) s →
      resampleLoopGuard "a.mp3".data twoSongLibrary s := by
  intro s hs
  obtain ⟨hlen, hcount⟩ := hs
  have hk : selectSongListSize 2 twoSongLibrary.length = 2 := by decide
  rw [hk] at hlen
  refine ⟨?_, by decide⟩
  by_contra ha
  have hb : ∀ x ∈ s, x = "b.mp3".data := by
    intro x hx
    have h1 : 0 < s.count x := List.count_pos_iff.mpr hx
    have h2 : 0 < twoSongLibrary.count x := lt_of_lt_of_le h1 (hcount x)
    have h3 : x ∈ twoSongLibrary := List.count_pos_iff.mp h2
    simp only [twoSongLibrary, List.mem_cons, List.not_mem_nil, or_false] at h3
    rcases h3 with h3 | h3
    · subst h3; exact absurd hx ha
    · exact h3
  have hc : s.count "b.mp3".data = s.length :=
    List.count_eq_length.mpr (fun y hy => (hb y hy).symm)
  have hd := hcount "b.mp3".data
  rw [hc, hlen] at hd
  have he : twoSongLibrary.count "b.mp3".data = 1 := by decide
  rw [he] at hd
  omega

/-- Witness for C3: the full library is itself a valid sample of size 2,
and the loop guard holds on it. -/
theorem c3_two_song_library_loop_never_exits_witness :
    resampleLoopGuard "a.mp3".data twoSongLibrary twoSongLibrary :=
  c3_two_song_library_loop_never_exits twoSongLibrary ⟨by decide, fun _ => le_refl _⟩

/-- If every attempt retries, the loop falls through to
`_fallback_next_song` with the threaded `last_candidates`. -/
theorem chooseNextLoop_all_retry (mkSong : List Char → Song) (lastSong : Song)
    (songPaths : List (List Char)) (fb : FallbackOracle) :
    ∀ (os : List AttemptOracle) (lastCands : List Song),
      (∀ o ∈ os, (attemptStep o).1 = StepOutcome.retry) →
      chooseNextLoop mkSong lastSong songPaths fb os lastCands =
        fallbackNextSong mkSong lastSong songPaths
          (os.foldl (fun acc o => if o.candidates.isEmpty then acc else o.candidates)
            lastCands) fb := by
  intro os
  induction os with
  | nil => intro lastCands _; rfl
  | cons o rest ih =>
    intro lastCands hall
    have ho := hall o (List.mem_cons_self o rest)
    unfold chooseNextLoop
    cases hstep : attemptStep o with
    | mk outcome called =>
      cases outcome with
      | ret s => rw [hstep] at ho; simp at ho
      | retry =>
        simp only [List.foldl_cons]
        exact ih _ (fun o' ho' => hall o' (List.mem_cons_of_mem o ho'))

/-- If the loop returns `None`, the library holds no path other than the
last song's. -/
theorem chooseNextLoop_none (mkSong : List Char → Song) (lastSong : Song)
    (songPaths : List (List Char)) (fb : FallbackOracle) :
    ∀ (os : List AttemptOracle) (lastCands : List Song),
      chooseNextLoop mkSong lastSong songPaths fb os lastCands = none →
      songPaths.filter (fun p => p ≠ lastSong.path) = [] := by
  intro os
  induction os with
  | nil =>
    intro lastCands h
    unfold chooseNextLoop fallbackNextSong at h
    by_cases hc : lastCands.isEmpty = true
    · rw [if_pos hc] at h
      by_cases hp : (songPaths.filter (fun p => p ≠ lastSong.path)).isEmpty = true
      · exact List.isEmpty_iff.mp hp
      · rw [if_neg hp] at h
        exact absurd h (by simp)
    · rw [if_neg hc] at h
      exact absurd h (by simp)
  | cons o rest ih =>
    intro lastCands h
    unfold chooseNextLoop at h
    cases hstep : attemptStep o with
    | mk outcome called =>
      rw [hstep] at h
      cases outcome with
      | ret s => simp at h
      | retry => exact ih _ h

/-- C4: next-song selection is bounded with a fallback. The result of
`choose_next` depends on at most `MAX_NEXT_SONG_ATTEMPTS = 5` attempt
oracles; when every attempt retries, it returns `_fallback_next_song` on
the last candidate pool; the fallback returns a random member of that pool,
or of the library paths other than the last song's, and `None` exactly when
no such path exists; and `choose_next` returns `None` only when the library
holds no path other than the last song's. -/
theorem c4_choose_next_bounded_with_fallback :
    (∀ mkSong lastSong songPaths (oracles oracles' : Nat → AttemptOracle) fb,
      (∀ i, i < MAX_NEXT_SONG_ATTEMPTS → oracles i = oracles' i) →
      chooseNext mkSong lastSong songPaths oracles fb =
        chooseNext mkSong lastSong songPaths oracles' fb) ∧
    (∀ mkSong lastSong songPaths (oracles : Nat → AttemptOracle) fb,
      (∀ i, i < MAX_NEXT_SONG_ATTEMPTS → (attemptStep (oracles i)).1 = StepOutcome.retry) →
      chooseNext mkSong lastSong songPaths oracles fb =
        fallbackNextSong mkSong lastSong songPaths (lastCandidatePool oracles) fb) ∧
    (∀ mkSong lastSong songPaths candidates fb,
      (candidates ≠ [] →
        ∃ s ∈ candidates,
          fallbackNextSong mkSong lastSong songPaths candidates fb = some s) ∧
      (candidates = [] →
        (songPaths.filter (fun p => p ≠ lastSong.path) = [] →
          fallbackNextSong mkSong lastSong songPaths candidates fb = none) ∧
        (songPaths.filter (fun p => p ≠ lastSong.path) ≠ [] →
          ∃ p ∈ songPaths.filter (fun p => p ≠ lastSong.path),
            fallbackNextSong mkSong lastSong songPaths candidates fb = some (mkSong p)))) ∧
    (∀ mkSong lastSong songPaths (oracles : Nat → AttemptOracle) fb,
      chooseNext mkSong lastSong songPaths oracles fb = none →
      songPaths.filter (fun p => p ≠ lastSong.path) = []) := by
  refine ⟨?_, ?_, ?_, ?_⟩
  · intro mkSong lastSong songPaths oracles oracles' fb h
    unfold chooseNext
    congr 1
    apply List.map_congr_left
    intro i hi
    exact h i (List.mem_range.mp hi)
  · intro mkSong lastSong songPaths oracles fb h
    unfold chooseNext
    rw [chooseNextLoop_all_retry]
    · rw [List.foldl_map]
      rfl
    · intro o ho
      obtain ⟨i, hi, rfl⟩ := List.mem_map.mp ho
      exact h i (List.mem_range.mp hi)
  · intro mkSong lastSong songPaths candidates fb
    constructor
    · intro hne
      have hlen : 0 < candidates.length := List.length_pos.mpr hne
      have hidx : fb.candIdx % candidates.length < candidates.length :=
        Nat.mod_lt _ hlen
      refine ⟨candidates.getD (fb.candIdx % candidates.length) default, ?_, ?_⟩
      · rw [List.getD_eq_getElem _ _ hidx]
        exact List.getElem_mem hidx
      · unfold fallbackNextSong
        simp [List.isEmpty_iff, hne]
    · intro hc
      subst hc
      have houter : fallbackNextSong mkSong lastSong songPaths [] fb
          = (if (songPaths.filter (fun p => p ≠ lastSong.path)).isEmpty = true then none
             else some (mkSong ((songPaths.filter (fun p => p ≠ lastSong.path)).getD
               (fb.pathIdx % (songPaths.filter (fun p => p ≠ lastSong.path)).length) []))) := rfl
      constructor
      · intro hp
        rw [houter, hp]
        rfl
      · intro hp
        have hlen : 0 < (songPaths.filter (fun p => p ≠ lastSong.path)).length :=
          List.length_pos.mpr hp
        have hidx : fb.pathIdx % (songPaths.filter (fun p => p ≠ lastSong.path)).length <
            (songPaths.filter (fun p => p ≠ lastSong.path)).length :=
          Nat.mod_lt _ hlen
        refine ⟨(songPaths.filter (fun p => p ≠ lastSong.path)).getD
          (fb.pathIdx % (songPaths.filter (fun p => p ≠ lastSong.path)).length) [], ?_, ?_⟩
        · rw [List.getD_eq_getElem _ _ hidx]
          exact List.getElem_mem hidx
        · rw [houter, if_neg (fun h => hp (List.isEmpty_iff.mp h))]
  · intro mkSong lastSong songPaths oracles fb h
    exact chooseNextLoop_none mkSong lastSong songPaths fb _ _ h

/-- Witness for C4: with every attempt retrying, `choose_next` returns the
fallback on the last candidate pool. -/
theorem c4_choose_next_bounded_with_fallback_witness :
    chooseNext mkSongOfPath sampleSong ["track01.mp3".data, "track02.mp3".data]
        (fun _ => retryOracle) ⟨0, 0⟩ =
      fallbackNextSong mkSongOfPath sampleSong ["track01.mp3".data, "track02.mp3".data]
        (lastCandidatePool (fun _ => retryOracle)) ⟨0, 0⟩ :=
  c4_choose_next_bounded_with_fallback.2.1 mkSongOfPath sampleSong
    ["track01.mp3".data, "track02.mp3".data] (fun _ => retryOracle) ⟨0, 0⟩
    (fun _ _ => rfl)

/-- C5: the referee is consulted only on disagreement: when both selector
runs return songs with the same path, that song is returned at once and the
referee flag stays `false`; the referee flag is `true` only when both runs
return songs whose paths differ; and `choose_next` returns the unanimous
pick of its first attempt. -/
theorem c5_referee_only_on_disagreement :
    (∀ (o : AttemptOracle) (firstSong secondSong : Song),
      o.candidates ≠ [] →
      o.firstResult.song = some firstSong →
      o.secondResult.song = some secondSong →
      firstSong.path = secondSong.path →
      attemptStep o = (StepOutcome.ret firstSong, false)) ∧
    (∀ o : AttemptOracle, (attemptStep o).2 = true →
      ∃ firstSong secondSong,
        o.firstResult.song = some firstSong ∧
        o.secondResult.song = some secondSong ∧
        firstSong.path ≠ secondSong.path) ∧
    (∀ mkSong lastSong songPaths (oracles : Nat → AttemptOracle) fb
        (firstSong secondSong : Song),
      (oracles 0).candidates ≠ [] →
      (oracles 0).firstResult.song = some firstSong →
      (oracles 0).secondResult.song = some secondSong →
      firstSong.path = secondSong.path →
      chooseNext mkSong lastSong songPaths oracles fb = some firstSong) := by
  have hstep : ∀ (o : AttemptOracle) (firstSong secondSong : Song),
      o.candidates ≠ [] →
      o.firstResult.song = some firstSong →
      o.secondResult.song = some secondSong →
      firstSong.path = secondSong.path →
      attemptStep o = (StepOutcome.ret firstSong, false) := by
    intro o firstSong secondSong hc h1 h2 hp
    unfold attemptStep
    rw [h1, h2]
    simp [List.isEmpty_iff, hc, hp]
  refine ⟨hstep, ?_, ?_⟩
  · intro o h
    unfold attemptStep at h
    by_cases hc : o.candidates.isEmpty
    · simp [hc] at h
    · simp only [hc, if_false] at h
      cases h1 : o.firstResult.song with
      | none =>
        rw [h1] at h
        cases h2 : o.secondResult.song with
        | none => rw [h2] at h; simp at h
        | some s => rw [h2] at h; simp at h
      | some firstSong =>
        rw [h1] at h
        cases h2 : o.secondResult.song with
        | none => rw [h2] at h; simp at h
        | some secondSong =>
          rw [h2] at h
          by_cases hp : firstSong.path = secondSong.path
          · simp [hp] at h
          · exact ⟨firstSong, secondSong, rfl, rfl, hp⟩
  · intro mkSong lastSong songPaths oracles fb firstSong secondSong hc h1 h2 hp
    unfold chooseNext
    have h5 : (List.range MAX_NEXT_SONG_ATTEMPTS).map oracles =
        oracles 0 :: [oracles 1, oracles 2, oracles 3, oracles 4] := rfl
    rw [h5]
    unfold chooseNextLoop
    rw [hstep (oracles 0) firstSong secondSong hc h1 h2 hp]

/-- Witness for C5: the unanimous oracle returns its pick without the
referee; the disagreeing oracle sets the referee flag, so the two selector
songs differ; and `choose_next` on the unanimous oracle returns the pick. -/
theorem c5_referee_only_on_disagreement_witness :
    attemptStep sampleAgreeOracle = (StepOutcome.ret sampleSong, false) ∧
    (∃ firstSong secondSong,
      sampleDisagreeOracle.firstResult.song = some firstSong ∧
      sampleDisagreeOracle.secondResult.song = some secondSong ∧
      firstSong.path ≠ secondSong.path) ∧
    chooseNext mkSongOfPath sampleSongB ["track01.mp3".data]
      (fun _ => sampleAgreeOracle) ⟨0, 0⟩ = some sampleSong :=
  ⟨c5_referee_only_on_disagreement.1 sampleAgreeOracle sampleSong sampleSong
      (by decide) rfl rfl rfl,
   c5_referee_only_on_disagreement.2.1 sampleDisagreeOracle (by decide),
   c5_referee_only_on_disagreement.2.2 mkSongOfPath sampleSongB ["track01.mp3".data]
      (fun _ => sampleAgreeOracle) ⟨0, 0⟩ sampleSong sampleSong
      (by decide) rfl rfl rfl⟩

/-- C10: whenever `transcribe_audio` creates the transcription WAV, both
the WAV and the transcript text file are gone from the created-file set
when the function returns, on the success path and on the non-zero
return-code path alike. -/
theorem c10_transcription_temp_files_cleaned :
    ∀ (env : TranscribeEnv) (wav : List Char), env.wavPath = some wav →
      wav ∉ (transcribeAudio env).2 ∧ transcriptPathOf wav ∉ (transcribeAudio env).2 := by
  intro env wav hwav
  unfold transcribeAudio
  rw [hwav]
  cases h1 : env.audioPathNonempty <;> cases h2 : env.audioIsFile <;>
    cases h3 : env.whisperCliFound <;> cases h4 : env.modelEnsured <;>
      simp only [Bool.not_true, Bool.not_false, if_true, if_false] <;>
        try exact ⟨List.not_mem_nil _, List.not_mem_nil _⟩
  by_cases h5 : env.whisperReturncode ≠ 0
  · simp [h5, removeFile, List.mem_filter]
  · rw [if_neg h5]
    cases h6 : env.transcriptContent <;>
      simp [removeFile, List.mem_filter]

/-- Witness for C10: a successful concrete run deletes both files. -/
theorem c10_transcription_temp_files_cleaned_witness :
    "/tmp/dj/song.wav".data ∉ (transcribeAudio sampleTranscribeEnv).2 ∧
    transcriptPathOf "/tmp/dj/song.wav".data ∉ (transcribeAudio sampleTranscribeEnv).2 :=
  c10_transcription_temp_files_cleaned sampleTranscribeEnv "/tmp/dj/song.wav".data rfl

/-- The empty pattern is a substring of everything. -/
theorem isSubstringOf_nil (s : List Char) : isSubstringOf [] s = true := by
  induction s with
  | nil => rfl
  | cons c cs ih => simp [isSubstringOf, List.isPrefixOf]

/-- C6 (amended): with refinement disallowed, `_finalize_intro_text` returns
`None` for every candidate text that — after code-fence stripping and
whitespace stripping — contains `fact:` or `trivia:` case-insensitively,
contains both `<` and `>`, exceeds `MAX_INTRO_CHARS` characters, or whose
estimated sentence count measured after removing a leading boilerplate
opening sentence is below `MIN_INTRO_SENTENCES` or above
`MAX_INTRO_SENTENCES`. -/
theorem c6_validator_rejects (text : List Char) (song : Song)
    (h : isSubstringOf "fact:".data (lowerStr (pyStrip (strip_code_fences text))) = true ∨
      isSubstringOf "trivia:".data (lowerStr (pyStrip (strip_code_fences text))) = true ∨
      ((pyStrip (strip_code_fences text)).contains '<' = true ∧
        (pyStrip (strip_code_fences text)).contains '>' = true) ∨
      MAX_INTRO_CHARS < (pyStrip (strip_code_fences text)).length ∨
      estimate_sentence_count (boilerplateProcessed (pyStrip (strip_code_fences text))) <
        MIN_INTRO_SENTENCES ∨
      MAX_INTRO_SENTENCES <
        estimate_sentence_count (boilerplateProcessed (pyStrip (strip_code_fences text)))) :
    finalize_intro_text text song = none := by
  simp only [finalize_intro_text]
  split_ifs with h0 h1 h2 h3 h4 h5 h6 h7
  any_goals rfl
  exfalso
  rcases h with h | h | h | h | h | h <;> simp_all

/-- Witness for C6: a text containing `fact:` is rejected. -/
theorem c6_validator_rejects_witness :
    finalize_intro_text "fact: trivia goes here".data ce6Song = none :=
  c6_validator_rejects "fact: trivia goes here".data ce6Song (Or.inl (by decide))

set_option maxRecDepth 100000 in
set_option maxHeartbeats 4000000 in
/-- C6 counterexample to the claim as stated: `ce6Text` has eleven estimated
sentences after code-fence stripping (more than `MAX_INTRO_SENTENCES`), yet
`_finalize_intro_text` accepts it, because the sentence count is measured
only after the leading boilerplate sentence is removed. -/
theorem c6_sentence_count_counterexample :
    MAX_INTRO_SENTENCES < estimate_sentence_count (pyStrip (strip_code_fences ce6Text)) ∧
    (finalize_intro_text ce6Text ce6Song).isSome = true := by
  constructor
  · decide
  · decide

/-- Whatever `_finalize_intro_text` returns is the output of the title step
on the boilerplate-processed cleaned text. -/
theorem finalize_intro_text_some_shape (text : List Char) (song : Song)
    (r : List Char) (h : finalize_intro_text text song = some r) :
    r = finalize_title_step (boilerplateProcessed (pyStrip (strip_code_fences text)))
      song.title := by
  simp only [finalize_intro_text] at h
  split_ifs at h
  injection h with h
  exact h.symm

/-- `_append_title_if_missing` either returns its input unchanged — in which
case the normalized title is a substring of the normalized input — or
returns a text ending in the title followed by a period. -/
theorem append_title_eq_or_suffix (text songTitle : List Char) :
    (append_title_if_missing text songTitle = text ∧
      isSubstringOf (normalize_sentence songTitle) (normalize_sentence text) = true) ∨
    (songTitle ++ ['.']) <:+ append_title_if_missing text songTitle := by
  simp only [append_title_if_missing]
  split_ifs with h1 h2 h3 h4 h5
  · -- songTitle = [] : unchanged, and the empty normalization is a substring
    left
    refine ⟨rfl, ?_⟩
    have he : songTitle = [] := List.isEmpty_iff.mp h1
    subst he
    exact isSubstringOf_nil _
  · -- empty normalized title or already mentioned
    left
    refine ⟨rfl, ?_⟩
    rcases Bool.or_eq_true _ _ |>.mp h2 with he | hsub
    · have he2 : normalize_sentence songTitle = [] := List.isEmpty_iff.mp he
      rw [he2]
      exact isSubstringOf_nil _
    · exact hsub
  · -- period added, then the title appended
    right
    exact ⟨(rstrip text ++ ['.']) ++ [' '], by simp⟩
  · -- period added, but the result were empty: impossible
    exfalso
    simp at h4
  · -- text non-empty and already punctuated: the title is appended directly
    right
    exact ⟨text ++ [' '], by simp⟩
  · -- text empty: the result is the title and a period
    right
    exact ⟨[], by simp⟩

/-- C2 (amended): for every song with a non-empty title, every non-`None`
result of `_finalize_intro_text` either mentions the title (its
normalization is a substring of the normalized result, which covers the
already-mentioned case) or ends with the appended title and a period —
except when appending the title would push the text beyond
`MAX_INTRO_CHARS`, in which case the text is returned without the title. -/
theorem c2_title_mentioned_or_append_exceeds (text : List Char) (song : Song)
    (r : List Char) (htitle : song.title ≠ [])
    (h : finalize_intro_text text song = some r) :
    isSubstringOf (normalize_sentence song.title) (normalize_sentence r) = true ∨
    (song.title ++ ['.']) <:+ r ∨
    MAX_INTRO_CHARS < (append_title_if_missing r song.title).length := by
  have hr := finalize_intro_text_some_shape text song r h
  have hne : (!song.title.isEmpty) = true := by
    simp only [Bool.not_eq_true', Bool.eq_false_iff]
    intro hcontra
    exact htitle (List.isEmpty_iff.mp hcontra)
  rw [finalize_title_step, if_pos hne] at hr
  by_cases hlen :
      (append_title_if_missing (boilerplateProcessed (pyStrip (strip_code_fences text)))
        song.title).length ≤ MAX_INTRO_CHARS
  · rw [if_pos hlen] at hr
    rcases append_title_eq_or_suffix
        (boilerplateProcessed (pyStrip (strip_code_fences text))) song.title with
      ⟨hEq, hSub⟩ | hSuf
    · left
      rw [hr, hEq]
      exact hSub
    · right; left
      rw [hr]
      exact hSuf
  · rw [if_neg hlen] at hr
    right; right
    rw [hr]
    exact Nat.lt_of_not_le hlen

/-- Witness for C2 (amended): on a three-sentence intro missing its title,
the validator appends the title, so the result ends with the title and a
period. -/
theorem c2_title_mentioned_or_append_exceeds_witness :
    isSubstringOf (normalize_sentence c2WitnessSong.title)
      (normalize_sentence c2WitnessResult) = true ∨
    (c2WitnessSong.title ++ ['.']) <:+ c2WitnessResult ∨
    MAX_INTRO_CHARS < (append_title_if_missing c2WitnessResult c2WitnessSong.title).length :=
  c2_title_mentioned_or_append_exceeds c2WitnessText c2WitnessSong c2WitnessResult
    (by decide) (by decide)

/-- An occurrence of a non-empty pattern never starts past the end. -/
theorem occursAt_le_length {s pat : List Char} {i : Nat} (hp : pat ≠ [])
    (h : OccursAt s pat i) : i ≤ s.length := by
  by_contra hgt
  push_neg at hgt
  have hdrop : s.drop i = [] := List.drop_eq_nil_of_le (Nat.le_of_lt hgt)
  rw [OccursAt, hdrop] at h
  exact hp (List.eq_nil_of_prefix_nil h)

/-- To show a property of every occurrence of a non-empty pattern, it is
enough to show it for starting indices up to the length of the string. -/
theorem occursAt_forall_of_le_length {s pat : List Char} {P : Nat → Prop}
    (hp : pat ≠ []) (h : ∀ j, j ≤ s.length → OccursAt s pat j → P j) :
    ∀ j, OccursAt s pat j → P j :=
  fun j hj => h j (occursAt_le_length hp hj) hj

/-- `find?` over `range'` returns the least index satisfying the predicate. -/
theorem find?_range'_eq_some {f : Nat → Bool} :
    ∀ (n start i : Nat), start ≤ i → i < start + n → f i = true →
      (∀ j, start ≤ j → j < i → f j = false) →
      (List.range' start n).find? f = some i := by
  intro n
  induction n with
  | zero => intro start i h1 h2 _ _; omega
  | succ m ih =>
    intro start i h1 h2 hf hmin
    rw [List.range'_succ]
    by_cases hsi : i = start
    · subst hsi
      rw [List.find?_cons_of_pos _ hf]
    · have hfs : f start = false := hmin start (Nat.le_refl _) (by omega)
      rw [List.find?_cons_of_neg _ (by simp [hfs])]
      exact ih (start + 1) i (by omega) (by omega) hf
        (fun j hj1 hj2 => hmin j (by omega) hj2)

/-- `findSubFrom` misses exactly when the pattern has no occurrence at or
after the start index. -/
theorem findSubFrom_eq_none_of {s pat : List Char} {start : Nat}
    (h : ∀ j, start ≤ j → ¬ OccursAt s pat j) :
    findSubFrom s pat start = none := by
  unfold findSubFrom
  rw [List.find?_eq_none]
  intro i _ hcontra
  rw [Bool.and_eq_true, decide_eq_true_eq] at hcontra
  exact h i hcontra.1 (List.isPrefixOf_iff_prefix.mp hcontra.2)

/-- `findSubFrom` finds the least occurrence at or after the start index. -/
theorem findSubFrom_eq_some_of {s pat : List Char} {start i : Nat}
    (hp : pat ≠ []) (h1 : start ≤ i) (h2 : OccursAt s pat i)
    (hmin : ∀ j, start ≤ j → OccursAt s pat j → i ≤ j) :
    findSubFrom s pat start = some i := by
  unfold findSubFrom
  rw [List.range_eq_range']
  apply find?_range'_eq_some (s.length + 1) 0 i (Nat.zero_le i)
    (by have := occursAt_le_length hp h2; omega)
  · rw [Bool.and_eq_true, decide_eq_true_eq]
    exact ⟨h1, List.isPrefixOf_iff_prefix.mpr h2⟩
  · intro j _ hji
    refine Bool.eq_false_iff.mpr fun htrue => ?_
    rw [Bool.and_eq_true, decide_eq_true_eq] at htrue
    exact absurd (hmin j htrue.1 (List.isPrefixOf_iff_prefix.mp htrue.2)) (by omega)

/-- `getLast?` of a filtered `range` returns the greatest index satisfying
the predicate. -/
theorem getLast?_filter_range_eq_some {f : Nat → Bool} :
    ∀ (n i : Nat), i < n → f i = true → (∀ j, i < j → j < n → f j = false) →
      ((List.range n).filter f).getLast? = some i := by
  intro n
  induction n with
  | zero => intro i h _ _; omega
  | succ m ih =>
    intro i hi hf hmax
    rw [List.range_succ, List.filter_append]
    by_cases him : i = m
    · subst him
      have hone : List.filter f [i] = [i] := by simp [List.filter_cons, hf]
      rw [hone]
      exact List.getLast?_concat _
    · have hfm : f m = false := hmax m (by omega) (by omega)
      have hnone : List.filter f [m] = [] := by simp [List.filter_cons, hfm]
      rw [hnone, List.append_nil]
      exact ih i (by omega) hf (fun j h1 h2 => hmax j h1 (by omega))

/-- `getLast?` of a filtered `range` misses when nothing satisfies the
predicate. -/
theorem getLast?_filter_range_eq_none {f : Nat → Bool} {n : Nat}
    (h : ∀ j, j < n → f j = false) :
    ((List.range n).filter f).getLast? = none := by
  have hnil : (List.range n).filter f = [] :=
    List.filter_eq_nil_iff.mpr (fun a ha => by simp [h a (List.mem_range.mp ha)])
  rw [hnil]
  rfl

/-- `rfindSub` finds the greatest occurrence of the pattern. -/
theorem rfindSub_eq_some_of {s pat : List Char} {i : Nat} (hp : pat ≠ [])
    (h : OccursAt s pat i) (hmax : ∀ j, OccursAt s pat j → j ≤ i) :
    rfindSub s pat = some i := by
  unfold rfindSub
  apply getLast?_filter_range_eq_some (s.length + 1) i
    (Nat.lt_succ_of_le (occursAt_le_length hp h))
    (List.isPrefixOf_iff_prefix.mpr h)
  intro j hij _
  refine Bool.eq_false_iff.mpr fun htrue => ?_
  exact absurd (hmax j (List.isPrefixOf_iff_prefix.mp htrue)) (by omega)

/-- `rfindSub` misses exactly when the pattern has no occurrence. -/
theorem rfindSub_eq_none_of {s pat : List Char}
    (h : ∀ j, ¬ OccursAt s pat j) : rfindSub s pat = none := by
  unfold rfindSub
  apply getLast?_filter_range_eq_none
  intro j _
  exact Bool.eq_false_iff.mpr fun htrue => h j (List.isPrefixOf_iff_prefix.mp htrue)

/-- C7 (amended): characterization of `extract_xml_tag` for tag names that
lowercasing leaves unchanged (the code searches the lowercased input for
the literal `<tag`, so matching is case-insensitive only in the input):
with no occurrence of the opening tag in the lowercased input the result is
empty; otherwise, taking the last opening-tag occurrence, if no `>` follows
it the result is empty (a case the original claim does not state);
otherwise, with the first `>` at or after it, the result is the stripped
text after that `>` when no closing tag follows, and the stripped text
between that `>` and the first subsequent closing-tag occurrence when one
does. -/
theorem c7_extract_xml_tag_characterization (rawText tag : List Char)
    (hlow : lowerStr tag = tag) :
    ((∀ i, ¬ OccursAt (lowerStr rawText) ('<' :: lowerStr tag) i) →
      extract_xml_tag rawText tag = []) ∧
    (∀ s, OccursAt (lowerStr rawText) ('<' :: lowerStr tag) s →
      (∀ j, OccursAt (lowerStr rawText) ('<' :: lowerStr tag) j → j ≤ s) →
      ((∀ g, s ≤ g → ¬ OccursAt rawText ['>'] g) →
        extract_xml_tag rawText tag = []) ∧
      (∀ g, s ≤ g → OccursAt rawText ['>'] g →
        (∀ g', s ≤ g' → OccursAt rawText ['>'] g' → g ≤ g') →
        ((∀ c, g + 1 ≤ c → ¬ OccursAt (lowerStr rawText) ('<' :: '/' :: lowerStr tag) c) →
          extract_xml_tag rawText tag = pyStrip (rawText.drop (g + 1))) ∧
        (∀ c, g + 1 ≤ c → OccursAt (lowerStr rawText) ('<' :: '/' :: lowerStr tag) c →
          (∀ c', g + 1 ≤ c' → OccursAt (lowerStr rawText) ('<' :: '/' :: lowerStr tag) c' →
            c ≤ c') →
          extract_xml_tag rawText tag = pyStrip (pySlice rawText (g + 1) c)))) := by
  rw [hlow]
  constructor
  · intro hno
    by_cases hraw : rawText.isEmpty
    · simp [extract_xml_tag, hraw]
    · have hr : rfindSub (lowerStr rawText) ('<' :: tag) = none :=
        rfindSub_eq_none_of hno

      simp [extract_xml_tag, hraw, hr]
  · intro s hs hmax
    have hraw : rawText.isEmpty = false := by
      cases rawText with
      | nil =>
        exfalso
        simp only [OccursAt, lowerStr, List.map_nil, List.drop_nil] at hs
        have hnil : ('<' :: tag) = [] := List.eq_nil_of_prefix_nil hs
        simp at hnil
      | cons c cs => rfl
    have hrf : rfindSub (lowerStr rawText) ('<' :: tag) = some s :=
      rfindSub_eq_some_of (by simp) hs hmax
    constructor
    · intro hnog
      have hfg : findSubFrom rawText ['>'] s = none :=
        findSubFrom_eq_none_of hnog
      simp [extract_xml_tag, hraw, hrf, hfg]
    · intro g hsg hg hgmin
      have hfg : findSubFrom rawText ['>'] s = some g :=
        findSubFrom_eq_some_of (by simp) hsg hg hgmin
      constructor
      · intro hnoc
        have hfc : findSubFrom (lowerStr rawText) ('<' :: '/' :: tag) (g + 1) = none :=
          findSubFrom_eq_none_of hnoc
        simp [extract_xml_tag, hraw, hrf, hfg, hfc]
      · intro c hgc hc hcmin
        have hfc : findSubFrom (lowerStr rawText) ('<' :: '/' :: tag) (g + 1) = some c :=
          findSubFrom_eq_some_of (by simp) hgc hc hcmin
        simp [extract_xml_tag, hraw, hrf, hfg, hfc]

/-- Witness for C7 (amended): the characterization computes the content of
`<w>hi</w>` for the tag `w` (last opening tag at 0, its `>` at 2, closing
tag at 5). -/
theorem c7_extract_xml_tag_characterization_witness :
    extract_xml_tag "<w>hi</w>".data "w".data = "hi".data := by
  have h := (c7_extract_xml_tag_characterization "<w>hi</w>".data "w".data (by decide)).2
    0 (by decide)
    (occursAt_forall_of_le_length (by decide) (by decide))
  have h2 := (h.2 2 (by decide) (by decide)
    (fun g' _ hocc => occursAt_forall_of_le_length (by decide) (by decide) g' hocc)).2
    5 (by decide) (by decide)
    (fun c' _ hocc => occursAt_forall_of_le_length (by decide) (by decide) c' hocc)
  rw [h2]
  decide

/-- C7 counterexample to the claim as stated: for the tag name `A` the
opening tag `<A` does occur in `<A>x</A>` case-insensitively, so the claim
prescribes the content `x`, yet `extract_xml_tag` returns the empty string:
the search compares the lowercased input against the literal (uppercase)
tag and never finds it. -/
theorem c7_uppercase_tag_counterexample :
    extract_xml_tag "<A>x</A>".data "A".data = [] ∧
    isSubstringOf ('<' :: lowerStr "A".data) (lowerStr "<A>x</A>".data) = true := by
  constructor
  · decide
  · decide

set_option maxRecDepth 100000 in
set_option maxHeartbeats 4000000 in
/-- C2 counterexample to the claim as stated: `ce2Text` passes validation
and is returned unchanged, yet it does not mention the song's title — not
by the `_title_is_mentioned` check, not as a normalized substring, and no
title was appended — because appending would exceed `MAX_INTRO_CHARS`. -/
theorem c2_title_presence_counterexample :
    finalize_intro_text ce2Text ce2Song = some ce2Text ∧
    title_is_mentioned ce2Text ce2Title = false ∧
    isSubstringOf (normalize_sentence ce2Title) (normalize_sentence ce2Text) = false ∧
    ¬ (ce2Title ++ ['.']) <:+ ce2Text := by
  refine ⟨by decide, by decide, by decide, by decide⟩

end RadioDJ
